import Mathlib

/-!
Shallow embedding of the WebAuthn backend's ceremony engine
(src/auth.rs, src/db.rs, src/db/repositories/passkey_repository.rs, src/error.rs).

Modelling conventions:
- Uuid values and opaque binary blobs (credential ids, public keys, challenges,
  wire credentials) are modelled as Nat.
- The Postgres tables touched by the engine are modelled as association lists:
  `users` holds (username, id) rows (username is UNIQUE, id is the primary key),
  `passkeys` holds (user_id, passkey_data) rows in insertion order (SERIAL key).
- Async SQL calls that may fail at the store level take Bool oracles
  (true = the query succeeds); the row-by-row INSERT loop of
  `update_user_passkeys` takes a per-row oracle `Nat → Bool`.
- The external webauthn-rs verification capability
  (`finish_passkey_registration` / `finish_passkey_authentication`) is passed in
  as a function returning `Except VerifError _`; `Passkey.update_credential`
  is embedded from webauthn-rs: it updates the counter and backup state only
  when the result's credential id matches, and bumps the counter only when the
  new value is strictly greater.
- The jsonwebtoken crate's `encode`/`decode` with `Validation::default()` is
  modelled by tagging the claims with the signing secret (possession of the
  secret stands for a valid HMAC) and checking expiry with the crate's default
  60-second leeway: a token is rejected as expired exactly when
  exp < now - leeway, i.e. exp + leeway < now.
-/

namespace WebauthnSpec

/-- Error enum from src/error.rs. Note there is no corrupt-or-expired-ceremony
variant in the ceremony flow; `CorruptSession` exists but is never constructed. -/
inductive WebauthnError where
  | Unknown
  | CorruptSession
  | UserNotFound
  | UserHasNoCredentials
  | Unauthorized
  | InvalidToken
  | TokenCreationError
  | UserAlreadyExists
deriving DecidableEq, Repr

/-- Stored passkey (webauthn-rs `Passkey`): credential id, opaque public-key
material, signature counter, backup-state metadata. -/
structure Passkey where
  credId : Nat
  publicKey : Nat
  counter : Nat
  backupState : Bool
deriving DecidableEq, Repr

/-- webauthn-rs `AuthenticationResult`: the credential id that was used in the
ceremony, the authenticator's new signature counter, and backup state. -/
structure AuthenticationResult where
  credId : Nat
  counter : Nat
  backupState : Bool
deriving DecidableEq, Repr

/-- webauthn-rs `Passkey::update_credential`: if the result's credential id
matches this passkey, advance the counter when strictly greater and refresh the
backup state; otherwise leave the passkey untouched. -/
def update_credential (sk : Passkey) (res : AuthenticationResult) : Passkey :=
  if res.credId = sk.credId then
    { sk with
      counter := if sk.counter < res.counter then res.counter else sk.counter,
      backupState := res.backupState }
  else sk

/-- The two database tables the ceremony engine touches. -/
structure Db where
  users : List (String × Nat)
  passkeys : List (Nat × Passkey)
deriving DecidableEq, Repr

/-- db.rs `get_user_id`: SELECT id FROM users WHERE username = $1. -/
def get_user_id (db : Db) (username : String) : Option Nat :=
  List.lookup username db.users

/-- db.rs `create_user`: INSERT INTO users (id, username); fails on a duplicate
primary key or duplicate UNIQUE username. -/
def create_user (db : Db) (user_id : Nat) (username : String) : Except Unit Db :=
  if db.users.any (fun r => r.1 == username || r.2 == user_id) then .error ()
  else .ok { db with users := db.users ++ [(username, user_id)] }

/-- db.rs `add_passkey`: INSERT INTO passkeys (user_id, passkey_data); the
SERIAL key makes this an append. -/
def add_passkey (db : Db) (user_id : Nat) (sk : Passkey) : Db :=
  { db with passkeys := db.passkeys ++ [(user_id, sk)] }

/-- db.rs `get_user_passkeys`: SELECT passkey_data FROM passkeys WHERE user_id = $1. -/
def get_user_passkeys (db : Db) (user_id : Nat) : List Passkey :=
  (db.passkeys.filter (fun r => r.1 == user_id)).map Prod.snd

/-- The DELETE FROM passkeys WHERE user_id = $1 step of db.rs `update_user_passkeys`. -/
def delete_user_passkeys (db : Db) (user_id : Nat) : Db :=
  { db with passkeys := db.passkeys.filter (fun r => !(r.1 == user_id)) }

/-- The row-by-row INSERT loop of db.rs `update_user_passkeys`; `insOk i` says
whether the i-th INSERT succeeds. On the first failing INSERT the function
returns the error (Bool false) and the rows written so far stay written:
nothing wraps the loop in a transaction. -/
def insert_loop (db : Db) (user_id : Nat) (pks : List Passkey)
    (insOk : Nat → Bool) (i : Nat) : Db × Bool :=
  match pks with
  | [] => (db, true)
  | pk :: rest =>
    if insOk i then insert_loop (add_passkey db user_id pk) user_id rest insOk (i + 1)
    else (db, false)

/-- db.rs `update_user_passkeys` with the INSERT-success oracle: DELETE all of
the user's rows, then INSERT the new rows one at a time. -/
def update_user_passkeys_run (db : Db) (user_id : Nat) (pks : List Passkey)
    (insOk : Nat → Bool) : Db × Bool :=
  insert_loop (delete_user_passkeys db user_id) user_id pks insOk 0

/-- db.rs `update_user_passkeys` on the all-INSERTs-succeed path. -/
def update_user_passkeys (db : Db) (user_id : Nat) (pks : List Passkey) : Db :=
  pks.foldl (fun a pk => add_passkey a user_id pk) (delete_user_passkeys db user_id)

/-- JWT claims structure from src/auth.rs. -/
structure Claims where
  sub : Nat
  exp : Nat
  iat : Nat
  username : String
deriving DecidableEq, Repr

/-- A signed token: the claims plus the signature, modelled as the secret that
produced it (an HMAC tag is exactly evidence of possession of the secret). -/
structure Token where
  claims : Claims
  sig : String
deriving DecidableEq, Repr

/-- Token lifetime used by `create_jwt`: ChronoDuration::days(7) in seconds. -/
def jwt_validity_seconds : Nat := 7 * 24 * 60 * 60

/-- Default leeway (seconds) applied by jsonwebtoken's `Validation::default()`. -/
def default_leeway : Nat := 60

/-- auth.rs `create_jwt`: claims carry the user id, expiry = now + 7 days,
issued-at = now, and the username; signed with the server secret. -/
def create_jwt (user_id : Nat) (username : String) (secret : String) (now : Nat) : Token :=
  { claims :=
      { sub := user_id, exp := now + jwt_validity_seconds, iat := now, username := username },
    sig := secret }

/-- auth.rs `decode_jwt`: decode with `Validation::default()`, which checks the
signature and rejects as expired exactly when exp < now - leeway
(equivalently exp + leeway < now); every failure maps to `InvalidToken`. -/
def decode_jwt (token : Token) (secret : String) (now : Nat) : Except WebauthnError Claims :=
  if token.sig = secret then
    if token.claims.exp + default_leeway < now then .error .InvalidToken
    else .ok token.claims
  else .error .InvalidToken

/-- Failure of the external webauthn-rs verification call; the constructor name
stands for the Rust error variant printed by the Debug formatter. -/
inductive VerifError where
  | BadSignature
  | ChallengeMismatch
deriving DecidableEq, Repr

/-- The Debug-format text of a verification error (Rust's {:?} rendering). -/
def VerifError.debugText : VerifError → String
  | .BadSignature => "BadSignature"
  | .ChallengeMismatch => "ChallengeMismatch"

/-- webauthn-rs `PasskeyRegistration` state as produced by
`start_passkey_registration`: the identity it was started for, the challenge,
and the exclusion list it was built with. In this backend the state is returned
to the client as plain JSON and comes back in the finish request. -/
structure RegState where
  userId : Nat
  username : String
  challenge : Nat
  exclude : Option (List Nat)
deriving DecidableEq, Repr

/-- The JSON body returned by `start_register`: the public options and the
serialized registration state, user id and username. -/
structure StartRegisterResponse where
  regState : RegState
  user_id : Nat
  username : String
deriving DecidableEq, Repr

/-- auth.rs `FinishRegisterRequest`: all four fields come from the client.
`registration_state` is `none` when the JSON fails to deserialize into a
`PasskeyRegistration`. -/
structure FinishRegisterRequest where
  credential : Nat
  registration_state : Option RegState
  user_id : Nat
  username : String
deriving DecidableEq, Repr

/-- webauthn-rs `PasskeyAuthentication` state: the credential ids the ceremony
allows and the challenge; also round-trips through the client as plain JSON. -/
structure AuthState where
  allowCredIds : List Nat
  challenge : Nat
deriving DecidableEq, Repr

/-- The JSON body returned by `start_authentication`. -/
structure StartAuthResponse where
  authState : AuthState
  user_id : Nat
  username : String
deriving DecidableEq, Repr

/-- auth.rs `FinishAuthRequest`: all four fields come from the client. -/
structure FinishAuthRequest where
  credential : Nat
  authentication_state : Option AuthState
  user_id : Nat
  username : String
deriving DecidableEq, Repr

/-- Caller-visible HTTP reply: status code and the message carried in the body
("message" on the inline 200/400 replies, "error" on `WebauthnError` replies). -/
structure HttpResponse where
  status : Nat
  message : String
deriving DecidableEq, Repr

/-- error.rs `impl IntoResponse for WebauthnError`. -/
def renderError : WebauthnError → HttpResponse
  | .Unknown => { status := 500, message := "Unknown error" }
  | .CorruptSession => { status := 400, message := "Corrupt session" }
  | .UserNotFound => { status := 404, message := "User not found" }
  | .UserHasNoCredentials => { status := 400, message := "User has no registered credentials" }
  | .Unauthorized => { status := 401, message := "Unauthorized" }
  | .InvalidToken => { status := 401, message := "Invalid token" }
  | .TokenCreationError => { status := 500, message := "Failed to create token" }
  | .UserAlreadyExists => { status := 409, message := "User already exists" }

/-- What the caller sees: the handler's Ok payload, or the rendered error. -/
def respond (r : Except WebauthnError HttpResponse) : HttpResponse :=
  match r with
  | .ok h => h
  | .error e => renderError e

/-- auth.rs `start_register`. `freshId` is the `Uuid::new_v4()` value drawn for
an unknown username; `challenge` is the challenge the webauthn capability puts
into the options and state; `userReadOk` / `passkeysReadOk` are the success
oracles of the two SELECTs. A failed user-id read is surfaced as `Unknown`; a
failed passkey read is swallowed and the exclusion list becomes `none`. The
function performs no database writes and stores no ceremony state server-side:
the state is handed back to the caller inside the response. -/
def start_register (db : Db) (username : String) (freshId : Nat) (challenge : Nat)
    (userReadOk : Bool) (passkeysReadOk : Bool) :
    Db × Except WebauthnError StartRegisterResponse :=
  if userReadOk then
    let user_unique_id := (get_user_id db username).getD freshId
    let exclude_credentials : Option (List Nat) :=
      if passkeysReadOk then
        some ((get_user_passkeys db user_unique_id).map Passkey.credId)
      else none
    (db,
      .ok
        { regState :=
            { userId := user_unique_id, username := username, challenge := challenge,
              exclude := exclude_credentials },
          user_id := user_unique_id, username := username })
  else (db, .error .Unknown)

/-- auth.rs `finish_register`. `verify` is the external
`finish_passkey_registration` call; `insOk` is the success oracle of the
`add_passkey` INSERT. The user id and username under which the user row and the
credential are persisted are `payload.user_id` and `payload.username`, taken
from the client request; a `create_user` failure is tolerated (logged only). -/
def finish_register (db : Db) (payload : FinishRegisterRequest)
    (verify : RegState → Nat → Except VerifError Passkey) (insOk : Bool) :
    Db × Except WebauthnError HttpResponse :=
  match payload.registration_state with
  | none => (db, .error .Unknown)
  | some reg_state =>
    match verify reg_state payload.credential with
    | .ok sk =>
      let db1 :=
        match create_user db payload.user_id payload.username with
        | .ok d => d
        | .error _ => db
      if insOk then
        (add_passkey db1 payload.user_id sk,
          .ok { status := 200, message := "Registration successful" })
      else (db1, .error .Unknown)
    | .error e =>
      (db, .ok { status := 400, message := "Registration failed: " ++ e.debugText })

/-- auth.rs `start_authentication`: resolve the user id (absence fails with
`UserNotFound`, a store error with `Unknown`), list the credentials (a store
error fails with `Unknown`), fail with `UserHasNoCredentials` on an empty set,
otherwise return the assertion options scoped to those credentials. No write
happens and no ceremony state is stored server-side. -/
def start_authentication (db : Db) (username : String) (challenge : Nat)
    (userReadOk : Bool) (passkeysReadOk : Bool) :
    Db × Except WebauthnError StartAuthResponse :=
  if userReadOk then
    match get_user_id db username with
    | none => (db, .error .UserNotFound)
    | some user_unique_id =>
      if passkeysReadOk then
        let allow_credentials := get_user_passkeys db user_unique_id
        if allow_credentials.isEmpty then (db, .error .UserHasNoCredentials)
        else
          (db,
            .ok
              { authState :=
                  { allowCredIds := allow_credentials.map Passkey.credId,
                    challenge := challenge },
                user_id := user_unique_id, username := username })
      else (db, .error .Unknown)
  else (db, .error .Unknown)

/-- auth.rs `finish_authentication`. `verify` is the external
`finish_passkey_authentication` call; `readOk` is the success oracle of the
passkey SELECT and `insOk` the per-row oracle of `update_user_passkeys`'s
INSERT loop. On success every stored passkey of `payload.user_id` (a
client-supplied field) is passed through `update_credential` and the whole set
is rewritten via delete-then-reinsert. -/
def finish_authentication (db : Db) (payload : FinishAuthRequest)
    (verify : AuthState → Nat → Except VerifError AuthenticationResult)
    (readOk : Bool) (insOk : Nat → Bool) :
    Db × Except WebauthnError HttpResponse :=
  match payload.authentication_state with
  | none => (db, .error .Unknown)
  | some auth_state =>
    match verify auth_state payload.credential with
    | .ok auth_result =>
      if readOk then
        let passkeys :=
          (get_user_passkeys db payload.user_id).map
            (fun sk => update_credential sk auth_result)
        match update_user_passkeys_run db payload.user_id passkeys insOk with
        | (db2, true) =>
          (db2, .ok { status := 200, message := "Authentication successful" })
        | (db2, false) => (db2, .error .Unknown)
      else (db, .error .Unknown)
    | .error e =>
      (db, .ok { status := 400, message := "Authentication failed: " ++ e.debugText })

/-! Concrete scenario values used by the witnesses and counterexamples. -/

/-- Empty database: no users, no passkeys. -/
def dbEmpty : Db := { users := [], passkeys := [] }

/-- A fresh credential as returned by a successful registration verification. -/
def skA : Passkey := { credId := 7, publicKey := 70, counter := 0, backupState := false }

/-- Registration verification oracle that always succeeds with `skA`. -/
def verifyOkReg : RegState → Nat → Except VerifError Passkey := fun _ _ => .ok skA

/-- Registration verification oracle failing with a bad signature. -/
def verifyBadSig : RegState → Nat → Except VerifError Passkey := fun _ _ => .error .BadSignature

/-- Registration verification oracle failing with a challenge mismatch. -/
def verifyBadChal : RegState → Nat → Except VerifError Passkey :=
  fun _ _ => .error .ChallengeMismatch

/-- The ceremony state issued by `start_register dbEmpty "alice" 1 10`:
bound to the freshly minted user id 1 and username "alice". -/
def regStateAlice : RegState :=
  { userId := 1, username := "alice", challenge := 10, exclude := some [] }

/-- An honest finish request: same identity fields the ceremony was bound to. -/
def aliceFinish : FinishRegisterRequest :=
  { credential := 0, registration_state := some regStateAlice, user_id := 1,
    username := "alice" }

/-- The ceremony state issued by a second `start_register dbEmpty "alice" 2 11`:
bound to the different fresh user id 2. -/
def regStateAlice2 : RegState :=
  { userId := 2, username := "alice", challenge := 11, exclude := some [] }

/-- A tampered finish request: it carries the state bound to (1, "alice") but
names user id 99 and username "mallory". -/
def malloryFinish : FinishRegisterRequest :=
  { credential := 0, registration_state := some regStateAlice, user_id := 99,
    username := "mallory" }

/-- A finish request whose registration state fails to deserialize. -/
def corruptFinish : FinishRegisterRequest :=
  { credential := 0, registration_state := none, user_id := 1, username := "alice" }

/-- Database with one credential-less user "bob" (id 2). -/
def dbBobNoKeys : Db := { users := [("bob", 2)], passkeys := [] }

/-- Passkey of user 1 in the two-user scenario (credential id 9, counter 3). -/
def skB : Passkey := { credId := 9, publicKey := 90, counter := 3, backupState := false }

/-- Passkey of user 2 in the two-user scenario (credential id 7, counter 5). -/
def skC : Passkey := { credId := 7, publicKey := 75, counter := 5, backupState := false }

/-- Two users, one credential each: credential 9 belongs to user 1 ("alice"),
credential 7 to user 2 ("bob"). -/
def dbTwo : Db :=
  { users := [("alice", 1), ("bob", 2)], passkeys := [(1, skB), (2, skC)] }

/-- Authentication result for credential 9 advancing its counter from 3 to 4. -/
def resB : AuthenticationResult := { credId := 9, counter := 4, backupState := false }

/-- Authentication verification oracle that always succeeds with `resB`. -/
def verifyOkAuth : AuthState → Nat → Except VerifError AuthenticationResult :=
  fun _ _ => .ok resB

/-- Honest authentication finish request: user 1 owns the used credential 9. -/
def authReqAlice : FinishAuthRequest :=
  { credential := 0, authentication_state := some { allowCredIds := [9], challenge := 5 },
    user_id := 1, username := "alice" }

/-- Mismatched authentication finish request: the ceremony used credential 9
(owned by user 1) but the client-supplied user id names user 2. -/
def authReqBobWrong : FinishAuthRequest :=
  { credential := 0, authentication_state := some { allowCredIds := [9], challenge := 5 },
    user_id := 2, username := "bob" }

/-- Second passkey of user 1 in the replacement scenario. -/
def skD : Passkey := { credId := 8, publicKey := 80, counter := 2, backupState := false }

/-- One user owning two credentials, used for the atomicity analysis. -/
def dbOneUserTwoKeys : Db :=
  { users := [("alice", 1)], passkeys := [(1, skB), (1, skD)] }

/-! Helper lemmas about the credential-set replacement. -/

/-- Folding `add_passkey` appends the rows of the given passkeys in order. -/
theorem foldl_add_passkey_rows (user_id : Nat) (pks : List Passkey) (d : Db) :
    (pks.foldl (fun a pk => add_passkey a user_id pk) d).passkeys =
      d.passkeys ++ pks.map (fun pk => (user_id, pk)) := by
  induction pks generalizing d with
  | nil => simp
  | cons pk rest ih =>
    rw [List.foldl_cons, ih]
    simp [add_passkey]

/-- Row-level description of the all-success replacement: the user's old rows
are removed and the new rows are appended at the end. -/
theorem update_user_passkeys_rows (db : Db) (user_id : Nat) (pks : List Passkey) :
    (update_user_passkeys db user_id pks).passkeys =
      db.passkeys.filter (fun r => !(r.1 == user_id)) ++
        pks.map (fun pk => (user_id, pk)) := by
  simp [update_user_passkeys, foldl_add_passkey_rows, delete_user_passkeys]

/-- Reading the user's credentials back after a successful full replacement
yields exactly the replacement list. -/
theorem get_user_passkeys_update (db : Db) (user_id : Nat) (pks : List Passkey) :
    get_user_passkeys (update_user_passkeys db user_id pks) user_id = pks := by
  unfold get_user_passkeys
  rw [update_user_passkeys_rows, List.filter_append]
  have h1 : (db.passkeys.filter (fun r => !(r.1 == user_id))).filter
      (fun r => r.1 == user_id) = [] := by
    rw [List.filter_eq_nil_iff]
    intro r hr
    have h := (List.mem_filter.mp hr).2
    simp at h ⊢
    exact h
  have h2 : (pks.map (fun pk => (user_id, pk))).filter (fun r => r.1 == user_id) =
      pks.map (fun pk => (user_id, pk)) := by
    rw [List.filter_eq_self]
    intro r hr
    obtain ⟨pk, hpk, hrw⟩ := List.mem_map.mp hr
    rw [← hrw]
    simp
  rw [h1, h2]
  simp

/-- With an all-true INSERT oracle the insert loop performs the whole fold and
reports success. -/
theorem insert_loop_all_ok (user_id : Nat) (pks : List Passkey) (db : Db) (i : Nat) :
    insert_loop db user_id pks (fun _ => true) i =
      (pks.foldl (fun a pk => add_passkey a user_id pk) db, true) := by
  induction pks generalizing db i with
  | nil => simp [insert_loop]
  | cons pk rest ih => simp [insert_loop, ih]

/-- With an all-true INSERT oracle `update_user_passkeys_run` is exactly the
all-success replacement. -/
theorem update_run_all_ok (db : Db) (user_id : Nat) (pks : List Passkey) :
    update_user_passkeys_run db user_id pks (fun _ => true) =
      (update_user_passkeys db user_id pks, true) := by
  simp [update_user_passkeys_run, update_user_passkeys, insert_loop_all_ok]

/-- C1: finish_register persists the user row and the credential under the
client-supplied identity fields, not under the identity bound in the stored
ceremony state: the state issued by start_register is bound to user 1 and
"alice", yet a finish request carrying that very state with user_id 99 and
username "mallory" succeeds and records the credential under 99 and creates
user "mallory", while user 1 receives nothing. -/
theorem finish_register_trusts_client_identity :
    (start_register dbEmpty "alice" 1 10 true true).2 =
      .ok { regState := regStateAlice, user_id := 1, username := "alice" } ∧
    regStateAlice.userId = 1 ∧
    malloryFinish.registration_state = some regStateAlice ∧
    (finish_register dbEmpty malloryFinish verifyOkReg true).2 =
      .ok { status := 200, message := "Registration successful" } ∧
    (finish_register dbEmpty malloryFinish verifyOkReg true).1.users =
      [("mallory", 99)] ∧
    get_user_passkeys (finish_register dbEmpty malloryFinish verifyOkReg true).1 99 =
      [skA] ∧
    get_user_passkeys (finish_register dbEmpty malloryFinish verifyOkReg true).1 1 =
      [] :=
  ⟨rfl, rfl, rfl, rfl, rfl, rfl, rfl⟩

/-- C2: nothing ever consumes a ceremony state, so the same finish request can
be replayed: both finish_register calls succeed with HTTP 200 and the same
credential is inserted twice; neither call observes a corrupt-or-expired
failure (the flow never produces one). -/
theorem finish_register_twice_both_succeed :
    (finish_register dbEmpty aliceFinish verifyOkReg true).2 =
      .ok { status := 200, message := "Registration successful" } ∧
    (finish_register (finish_register dbEmpty aliceFinish verifyOkReg true).1
        aliceFinish verifyOkReg true).2 =
      .ok { status := 200, message := "Registration successful" } ∧
    get_user_passkeys
      (finish_register (finish_register dbEmpty aliceFinish verifyOkReg true).1
        aliceFinish verifyOkReg true).1 1 = [skA, skA] :=
  ⟨rfl, rfl, rfl⟩

/-- C3: update_user_passkeys is a DELETE followed by row-by-row INSERTs with no
transaction around them: starting from a user owning two credentials, replacing
the set with two rows while the second INSERT fails returns an error and leaves
exactly one credential persisted, a partially written set. -/
theorem update_user_passkeys_not_atomic :
    (get_user_passkeys dbOneUserTwoKeys 1).length = 2 ∧
    update_user_passkeys_run dbOneUserTwoKeys 1 [skB, skD] (fun i => i == 0) =
      ({ users := [("alice", 1)], passkeys := [(1, skB)] }, false) ∧
    (get_user_passkeys
      (update_user_passkeys_run dbOneUserTwoKeys 1 [skB, skD] (fun i => i == 0)).1
      1).length = 1 :=
  ⟨rfl, rfl, rfl⟩

/-- C4: two start_register calls for the unknown username "alice" mint the two
different fresh ids drawn for them (1, then 2) and leave the database
unchanged, but the second start does not invalidate the first ceremony:
finishing with the first state afterwards still succeeds with HTTP 200 instead
of failing with a corrupt-or-expired-ceremony error. -/
theorem start_register_twice_no_invalidation :
    start_register dbEmpty "alice" 1 10 true true =
      (dbEmpty, .ok { regState := regStateAlice, user_id := 1, username := "alice" }) ∧
    start_register dbEmpty "alice" 2 11 true true =
      (dbEmpty, .ok { regState := regStateAlice2, user_id := 2, username := "alice" }) ∧
    regStateAlice.userId ≠ regStateAlice2.userId ∧
    (finish_register dbEmpty aliceFinish verifyOkReg true).2 =
      .ok { status := 200, message := "Registration successful" } :=
  ⟨rfl, rfl, by decide, rfl⟩

/-- C5: failing finish calls are distinguishable by the caller: a corrupt
ceremony state renders as HTTP 500 with a generic unknown-error body, while a
cryptographic verification failure renders as HTTP 400 with the Debug text of
the underlying cause appended, so distinct causes yield distinct responses. -/
theorem finish_register_error_responses_distinguish_causes :
    respond (finish_register dbEmpty corruptFinish verifyOkReg true).2 =
      { status := 500, message := "Unknown error" } ∧
    respond (finish_register dbEmpty aliceFinish verifyBadSig true).2 =
      { status := 400, message := "Registration failed: BadSignature" } ∧
    respond (finish_register dbEmpty aliceFinish verifyBadChal true).2 =
      { status := 400, message := "Registration failed: ChallengeMismatch" } ∧
    respond (finish_register dbEmpty corruptFinish verifyOkReg true).2 ≠
      respond (finish_register dbEmpty aliceFinish verifyBadSig true).2 ∧
    respond (finish_register dbEmpty aliceFinish verifyBadSig true).2 ≠
      respond (finish_register dbEmpty aliceFinish verifyBadChal true).2 :=
  ⟨rfl, rfl, rfl, by decide, by decide⟩

/-- C10: a failing passkey read during start_register is swallowed: with the
passkey-read oracle false the ceremony still succeeds, the exclusion list is
absent (none), and the database is untouched. -/
theorem start_register_swallows_passkey_read_failure
    (db : Db) (username : String) (freshId challenge : Nat) :
    start_register db username freshId challenge true false =
      (db,
        .ok
          { regState :=
              { userId := (get_user_id db username).getD freshId, username := username,
                challenge := challenge, exclude := none },
            user_id := (get_user_id db username).getD freshId, username := username }) :=
  rfl

/-- C6 (amended): on a successful finish_authentication the persisted
credential set of the request's user id is exactly the stored set mapped
through update_credential: every stored credential whose id differs from the
used credential's id is unchanged in full, and a stored credential whose id
matches has its counter set to the result's counter whenever that is strictly
greater, keeping its id and public-key material. -/
theorem finish_authentication_frame
    (db : Db) (payload : FinishAuthRequest) (st : AuthState)
    (res : AuthenticationResult)
    (verify : AuthState → Nat → Except VerifError AuthenticationResult)
    (hst : payload.authentication_state = some st)
    (hv : verify st payload.credential = .ok res) :
    (finish_authentication db payload verify true (fun _ => true)).2 =
      .ok { status := 200, message := "Authentication successful" } ∧
    get_user_passkeys (finish_authentication db payload verify true (fun _ => true)).1
        payload.user_id =
      (get_user_passkeys db payload.user_id).map (fun sk => update_credential sk res) ∧
    (∀ sk : Passkey, sk.credId ≠ res.credId → update_credential sk res = sk) ∧
    (∀ sk : Passkey, sk.credId = res.credId → sk.counter < res.counter →
      (update_credential sk res).counter = res.counter ∧
      (update_credential sk res).credId = sk.credId ∧
      (update_credential sk res).publicKey = sk.publicKey) := by
  refine ⟨?_, ?_, ?_, ?_⟩
  · simp [finish_authentication, hst, hv, update_run_all_ok]
  · simp [finish_authentication, hst, hv, update_run_all_ok, get_user_passkeys_update]
  · intro sk h
    unfold update_credential
    rw [if_neg (fun e => h e.symm)]
  · intro sk h1 h2
    unfold update_credential
    rw [if_pos h1.symm, if_pos h2]
    exact ⟨rfl, rfl, rfl⟩

/-- C6 witness: the honest instance on a concrete database: user 1 finishes an
authentication that used their credential 9; the call succeeds and user 1's
persisted set is the stored set mapped through update_credential. -/
theorem finish_authentication_frame_witness :
    (finish_authentication dbTwo authReqAlice verifyOkAuth true (fun _ => true)).2 =
      .ok { status := 200, message := "Authentication successful" } ∧
    get_user_passkeys
        (finish_authentication dbTwo authReqAlice verifyOkAuth true (fun _ => true)).1 1 =
      [update_credential skB resB] := by
  have h := finish_authentication_frame dbTwo authReqAlice
    { allowCredIds := [9], challenge := 5 } resB verifyOkAuth rfl rfl
  exact ⟨h.1, h.2.1⟩

/-- C6 counterexample: a successful finish_authentication whose request names
user 2 while the ceremony's used credential 9 belongs to user 1: the call
returns HTTP 200 yet no stored signature counter changes anywhere — the used
credential's counter is not increased. -/
theorem finish_authentication_no_counter_update :
    (finish_authentication dbTwo authReqBobWrong verifyOkAuth true (fun _ => true)).2 =
      .ok { status := 200, message := "Authentication successful" } ∧
    (finish_authentication dbTwo authReqBobWrong verifyOkAuth true
        (fun _ => true)).1.passkeys.map (fun r => (r.1, r.2.credId, r.2.counter)) =
      [(1, 9, 3), (2, 7, 5)] ∧
    resB.credId = 9 ∧ resB.counter = 4 :=
  ⟨rfl, rfl, rfl, rfl⟩

/-- C7: start_authentication fails with UserNotFound when the username resolves
to no user, and fails with UserHasNoCredentials when the user exists but owns
zero credentials; in both cases the database is returned unchanged and no
options payload is produced. -/
theorem start_authentication_error_paths
    (db : Db) (username : String) (challenge : Nat) :
    (get_user_id db username = none →
      start_authentication db username challenge true true =
        (db, .error .UserNotFound)) ∧
    (∀ uid : Nat, get_user_id db username = some uid →
      get_user_passkeys db uid = [] →
      start_authentication db username challenge true true =
        (db, .error .UserHasNoCredentials)) := by
  constructor
  · intro h
    simp [start_authentication, h]
  · intro uid h1 h2
    simp [start_authentication, h1, h2]

/-- C7 witness: on the empty database "alice" is unknown, and on a database
holding a credential-less "bob" the zero-credentials failure fires with the
database unchanged. -/
theorem start_authentication_error_paths_witness :
    start_authentication dbEmpty "alice" 5 true true =
      (dbEmpty, .error .UserNotFound) ∧
    start_authentication dbBobNoKeys "bob" 5 true true =
      (dbBobNoKeys, .error .UserHasNoCredentials) :=
  ⟨(start_authentication_error_paths dbEmpty "alice" 5).1 rfl,
    (start_authentication_error_paths dbBobNoKeys "bob" 5).2 2 rfl rfl⟩

/-- C8: start_register writes nothing (the returned database is the input
database, so the user table is unchanged for an unknown username), and the
user id in its response is the existing user's id when the username resolves,
and the freshly minted id otherwise. -/
theorem start_register_resolves_id_and_writes_nothing
    (db : Db) (username : String) (freshId challenge : Nat) (passkeysReadOk : Bool) :
    (start_register db username freshId challenge true passkeysReadOk).1 = db ∧
    ∀ r : StartRegisterResponse,
      (start_register db username freshId challenge true passkeysReadOk).2 = .ok r →
      r.user_id = (get_user_id db username).getD freshId := by
  constructor
  · simp [start_register]
  · intro r h
    simp only [start_register, if_true] at h
    cases h
    rfl

/-- C8 witness: on the empty database the unknown username "alice" resolves to
the fresh id 1 and the database comes back unchanged. -/
theorem start_register_resolves_id_witness :
    (start_register dbEmpty "alice" 1 10 true true).1 = dbEmpty ∧
    ({ regState := regStateAlice, user_id := 1, username := "alice" } :
        StartRegisterResponse).user_id = (get_user_id dbEmpty "alice").getD 1 := by
  have h := start_register_resolves_id_and_writes_nothing dbEmpty "alice" 1 10 true
  exact ⟨h.1, h.2 { regState := regStateAlice, user_id := 1, username := "alice" } rfl⟩

/-- C9 counterexample: a token issued at time 0 carries expiry 604800 (7 days),
yet decoding it with the right secret at time 604830 — strictly after the
expiry instant — still succeeds, because the default validation applies a
60-second leeway. -/
theorem decode_jwt_succeeds_just_after_expiry :
    (create_jwt 1 "alice" "secret" 0).claims.exp = 604800 ∧
    604800 < 604830 ∧
    decode_jwt (create_jwt 1 "alice" "secret" 0) "secret" 604830 =
      .ok { sub := 1, exp := 604800, iat := 0, username := "alice" } :=
  ⟨rfl, by decide, rfl⟩

/-- C9 (amended): decoding a token issued with the same secret yields exactly
the issued user id and username, the expiry is fixed at 7 days (604800 seconds)
after issuance, and verification deterministically fails with the
invalid-token error exactly when the verification time exceeds the expiry
instant plus the 60-second default leeway of the JWT library's default
validation (and succeeds up to that bound). -/
theorem jwt_roundtrip_and_expiry
    (user_id : Nat) (username secret : String) (now t : Nat) :
    jwt_validity_seconds = 604800 ∧
    (create_jwt user_id username secret now).claims.exp = now + jwt_validity_seconds ∧
    (t ≤ now + jwt_validity_seconds + default_leeway →
      decode_jwt (create_jwt user_id username secret now) secret t =
        .ok { sub := user_id, exp := now + jwt_validity_seconds, iat := now,
              username := username }) ∧
    (now + jwt_validity_seconds + default_leeway < t →
      decode_jwt (create_jwt user_id username secret now) secret t =
        .error .InvalidToken) := by
  refine ⟨by norm_num [jwt_validity_seconds], rfl, ?_, ?_⟩
  · intro h
    simp only [decode_jwt, create_jwt]
    rw [if_pos trivial, if_neg (Nat.not_lt.mpr h)]
  · intro h
    simp only [decode_jwt, create_jwt]
    rw [if_pos trivial, if_pos h]

/-- C9 witness: a concrete round-trip at issuance time 0 decodes to the issued
identity, and decoding at time 700000 (past expiry plus leeway) fails. -/
theorem jwt_roundtrip_and_expiry_witness :
    decode_jwt (create_jwt 1 "alice" "k" 0) "k" 0 =
      .ok { sub := 1, exp := 0 + 604800, iat := 0, username := "alice" } ∧
    decode_jwt (create_jwt 1 "alice" "k" 0) "k" 700000 = .error .InvalidToken :=
  ⟨(jwt_roundtrip_and_expiry 1 "alice" "k" 0 0).2.2.1 (by decide),
    (jwt_roundtrip_and_expiry 1 "alice" "k" 0 700000).2.2.2 (by decide)⟩

end WebauthnSpec
